import Mathlib

/-!
Verification development for the cafe-kiosk-agent repository.

The Python sources under src/cafe-kiosk-agent are shallowly embedded as
executable Lean definitions:
* strings are Lean `String`s; Python `x in s` (substring test) and
  `str.lower()` are modelled by `pyInStr` and `pyLower`
  (both sides only ever contain Hangul and ASCII, on which the two
  agree with Python);
* Python dicts keyed by strings are association lists that preserve
  insertion order (as Python dicts do);
* monetary amounts and quantities are natural numbers (menu prices are
  positive integer won and `OrderItem.quantity` is an integer in
  [1, 99] per the data model); the tax rate, a Python float, is
  modelled as a rational number, and Python `int()` applied to the
  non-negative product `total_amount * tax_rate` is `Int.floor`;
* fallible lookups return `Option`; functions that cannot raise are
  total.
-/

/-- Python `needle in hay` on lists of characters. -/
def pyInChars (needle : List Char) : List Char → Bool
  | [] => needle.isEmpty
  | c :: rest => needle.isPrefixOf (c :: rest) || pyInChars needle rest

/-- Python substring test `needle in hay` for strings. -/
def pyInStr (needle hay : String) : Bool :=
  pyInChars needle.toList hay.toList

/-- Python `str.lower()` (character-wise; the repository only lowercases
Hangul and ASCII text, on which this agrees with Python). -/
def pyLower (s : String) : String := ⟨s.toList.map Char.toLower⟩

/-- Python `str.strip()`: drop leading and trailing whitespace. -/
def pyStrip (s : String) : String :=
  ⟨((s.toList.dropWhile Char.isWhitespace).reverse.dropWhile Char.isWhitespace).reverse⟩

/-- Python `str.split()` with no separator: split on whitespace runs,
dropping empty pieces. -/
def pySplitWs (s : String) : List String :=
  (s.split Char.isWhitespace).filter (fun t => !t.isEmpty)

/-- Helper for `normalize_whitespace`: collapse each whitespace run to a
single space (the input is already trimmed). -/
def collapseWs : List Char → List Char
  | [] => []
  | [c] => if c.isWhitespace then [' '] else [c]
  | c :: d :: rest =>
    if c.isWhitespace && d.isWhitespace then collapseWs (d :: rest)
    else (if c.isWhitespace then ' ' else c) :: collapseWs (d :: rest)

/-- `TextNormalizer.normalize_whitespace` (src/utils/validators.py):
`re.sub(r"\s+", " ", text.strip())`. -/
def normalize_whitespace (text : String) : String :=
  ⟨collapseWs (pyStrip text).toList⟩

/-! ## config/menu_database.py -/

/-- `MenuCategory` enum. -/
inductive MenuCategory
  | beverage
  | dessert
  | meal
deriving DecidableEq

/-- `SizeOption` enum: values "Tall", "Grande", "Venti". -/
inductive SizeOption
  | tall
  | grande
  | venti
deriving DecidableEq

/-- `TemperatureOption` enum: values "Hot", "Ice". -/
inductive TemperatureOption
  | hot
  | ice
deriving DecidableEq

/-- `MenuItem` dataclass. -/
structure MenuItem where
  name : String
  category : MenuCategory
  base_price : Nat
  description : String := ""
  available : Bool := true
  size_options : List SizeOption := []
  temperature_options : List TemperatureOption := []
  extra_options : List String := []
deriving DecidableEq

/-- `MenuItem.get_price`: base price plus 500 for Grande, 1000 for Venti,
nothing otherwise.  The source does not consult `size_options` here. -/
def MenuItem.get_price (item : MenuItem) (size : Option SizeOption) : Nat :=
  if size = some SizeOption.grande then item.base_price + 500
  else if size = some SizeOption.venti then item.base_price + 1000
  else item.base_price

/-- `BEVERAGE_MENU`, in source insertion order. -/
def BEVERAGE_MENU : List (String × MenuItem) := [
  ("아메리카노",
   { name := "아메리카노", category := .beverage, base_price := 4500,
     description := "진한 에스프레소에 물을 더한 클래식 커피",
     size_options := [.tall, .grande, .venti],
     temperature_options := [.hot, .ice],
     extra_options := ["샷 추가", "시럽 추가"] }),
  ("카페라떼",
   { name := "카페라떼", category := .beverage, base_price := 5000,
     description := "부드러운 우유와 에스프레소의 조화",
     size_options := [.tall, .grande, .venti],
     temperature_options := [.hot, .ice],
     extra_options := ["샷 추가", "시럽 추가", "휘핑 추가"] }),
  ("카푸치노",
   { name := "카푸치노", category := .beverage, base_price := 5000,
     description := "풍성한 우유 거품이 특징인 이탈리안 커피",
     size_options := [.tall, .grande, .venti],
     temperature_options := [.hot, .ice],
     extra_options := ["샷 추가", "시나몬 파우더"] }),
  ("바닐라라떼",
   { name := "바닐라라떼", category := .beverage, base_price := 5500,
     description := "달콤한 바닐라 시럽이 들어간 라떼",
     size_options := [.tall, .grande, .venti],
     temperature_options := [.hot, .ice],
     extra_options := ["샷 추가", "휘핑 추가"] }),
  ("카라멜마끼아또",
   { name := "카라멜마끼아또", category := .beverage, base_price := 5800,
     description := "달콤한 카라멜과 에스프레소의 만남",
     size_options := [.tall, .grande, .venti],
     temperature_options := [.hot, .ice],
     extra_options := ["샷 추가", "휘핑 추가", "카라멜 드리즐 추가"] }),
  ("아이스티",
   { name := "아이스티", category := .beverage, base_price := 4000,
     description := "상큼한 레몬 아이스티",
     size_options := [.tall, .grande, .venti],
     temperature_options := [.ice],
     extra_options := ["레몬 추가", "민트 추가"] }),
  ("오렌지주스",
   { name := "오렌지주스", category := .beverage, base_price := 5500,
     description := "신선한 오렌지로 만든 착즙 주스",
     size_options := [.tall, .grande],
     temperature_options := [.ice],
     extra_options := [] }),
  ("그린티라떼",
   { name := "그린티라떼", category := .beverage, base_price := 5500,
     description := "고소한 녹차와 우유의 조화",
     size_options := [.tall, .grande, .venti],
     temperature_options := [.hot, .ice],
     extra_options := ["휘핑 추가"] })]

/-- `DESSERT_MENU`, in source insertion order. -/
def DESSERT_MENU : List (String × MenuItem) := [
  ("케이크",
   { name := "케이크", category := .dessert, base_price := 6000,
     description := "촉촉한 초콜릿 케이크",
     extra_options := ["휘핑 추가"] }),
  ("치즈케이크",
   { name := "치즈케이크", category := .dessert, base_price := 6500,
     description := "부드러운 뉴욕 스타일 치즈케이크" }),
  ("마카롱",
   { name := "마카롱", category := .dessert, base_price := 3000,
     description := "프랑스 전통 마카롱 (5개입)" }),
  ("쿠키",
   { name := "쿠키", category := .dessert, base_price := 2500,
     description := "바삭한 초콜릿칩 쿠키" }),
  ("와플",
   { name := "와플", category := .dessert, base_price := 7000,
     description := "벨기에 스타일 와플",
     extra_options := ["아이스크림 추가", "생크림 추가", "메이플시럽 추가"] }),
  ("타르트",
   { name := "타르트", category := .dessert, base_price := 6500,
     description := "신선한 과일 타르트" }),
  ("브라우니",
   { name := "브라우니", category := .dessert, base_price := 4500,
     description := "진한 초콜릿 브라우니",
     extra_options := ["아이스크림 추가"] }),
  ("스콘",
   { name := "스콘", category := .dessert, base_price := 3500,
     description := "영국식 스콘 (잼&크림 포함)" })]

/-- `MEAL_MENU`, in source insertion order. -/
def MEAL_MENU : List (String × MenuItem) := [
  ("샌드위치",
   { name := "샌드위치", category := .meal, base_price := 8000,
     description := "신선한 야채와 햄이 들어간 클럽 샌드위치",
     extra_options := ["치즈 추가", "베이컨 추가"] }),
  ("베이글",
   { name := "베이글", category := .meal, base_price := 7000,
     description := "크림치즈를 곁들인 베이글",
     extra_options := ["연어 추가", "아보카도 추가"] }),
  ("샐러드",
   { name := "샐러드", category := .meal, base_price := 9000,
     description := "신선한 채소와 닭가슴살 샐러드",
     extra_options := ["발사믹 드레싱", "요거트 드레싱"] }),
  ("파스타",
   { name := "파스타", category := .meal, base_price := 12000,
     description := "토마토 소스 파스타",
     extra_options := ["치즈 추가", "버섯 추가"] }),
  ("리조또",
   { name := "리조또", category := .meal, base_price := 13000,
     description := "크리미한 버섯 리조또",
     extra_options := ["치즈 추가", "트러플 오일"] }),
  ("피자",
   { name := "피자", category := .meal, base_price := 15000,
     description := "마르게리타 피자 (1판)",
     extra_options := ["치즈 추가", "토핑 추가"] }),
  ("크로와상",
   { name := "크로와상", category := .meal, base_price := 4000,
     description := "버터 크로와상" }),
  ("프렌치토스트",
   { name := "프렌치토스트", category := .meal, base_price := 8500,
     description := "시나몬 프렌치토스트",
     extra_options := ["아이스크림 추가", "메이플시럽 추가"] })]

/-- `MENU_DATABASE`: category → menu mapping, in source insertion order. -/
def MENU_DATABASE : List (MenuCategory × List (String × MenuItem)) :=
  [(.beverage, BEVERAGE_MENU), (.dessert, DESSERT_MENU), (.meal, MEAL_MENU)]

/-- Name lookup inside one category menu (Python `dict.get(name)`). -/
def menuLookup (menu : List (String × MenuItem)) (name : String) : Option MenuItem :=
  (menu.find? (fun p => p.1 == name)).map Prod.snd

/-- `get_menu_by_category`. -/
def get_menu_by_category (category : MenuCategory) : List (String × MenuItem) :=
  ((MENU_DATABASE.find? (fun p => decide (p.1 = category))).map Prod.snd).getD []

/-- `get_menu_item(name, category=None)`: category-scoped lookup when a
category is given, otherwise first hit scanning categories in order. -/
def get_menu_item (name : String) (category : Option MenuCategory) : Option MenuItem :=
  match category with
  | some c => menuLookup (get_menu_by_category c) name
  | none => (MENU_DATABASE.filterMap (fun p => menuLookup p.2 name)).head?

/-- `get_all_menu_names`. -/
def get_all_menu_names : List String :=
  (MENU_DATABASE.map (fun p => p.2.map Prod.fst)).flatten

/-- The fixed size surcharge `get_price` actually adds: 0 for Tall or no
size, 500 for Grande, 1000 for Venti. -/
def size_delta : Option SizeOption → Nat
  | some SizeOption.grande => 500
  | some SizeOption.venti => 1000
  | _ => 0

/-- The 케이크 (cake) dessert item, which has an empty `size_options` list. -/
def cakeItem : MenuItem :=
  (get_menu_item "케이크" none).getD
    { name := "", category := .dessert, base_price := 0 }

/-! ## src/services/order_service.py — data model -/

/-- `OrderStatus` enum. -/
inductive OrderStatus
  | pending
  | processing
  | confirmed
  | preparing
  | ready
  | completed
  | cancelled
deriving DecidableEq

/-- `OrderItem` dataclass.  Quantities and won amounts are natural
numbers (the data model constrains quantity to [1, 99] and prices to
positive integer won). -/
structure OrderItem where
  menu_name : String
  quantity : Nat
  category : MenuCategory
  base_price : Nat
  size : Option SizeOption := none
  options : List String := []
  subtotal : Nat := 0
deriving DecidableEq

/-- `OrderItem.calculate_subtotal`: size-adjusted unit price plus 500 won
per extra option, times quantity; items missing from the catalog fall
back to the stored base price. -/
def OrderItem.calculate_subtotal (it : OrderItem) : OrderItem :=
  match get_menu_item it.menu_name none with
  | some menu_item =>
    { it with subtotal := (menu_item.get_price it.size + it.options.length * 500) * it.quantity }
  | none => { it with subtotal := it.base_price * it.quantity }

/-- `OrderItem.__post_init__`: construct an item and compute its subtotal. -/
def mkOrderItem (menu_name : String) (quantity : Nat) (category : MenuCategory)
    (base_price : Nat) (size : Option SizeOption) (options : List String) : OrderItem :=
  OrderItem.calculate_subtotal
    { menu_name := menu_name, quantity := quantity, category := category,
      base_price := base_price, size := size, options := options }

/-- `Order` dataclass (timestamps omitted: no claim mentions them). -/
structure Order where
  order_id : String
  items : List OrderItem
  status : OrderStatus := .pending
  customer_notes : String := ""
  total_amount : Nat := 0
  tax_amount : Int := 0
  final_amount : Int := 0
deriving DecidableEq

/-- `Order.calculate_amounts` with the configured `settings.tax_rate`
passed explicitly: total = sum of item subtotals; tax = `int(total *
tax_rate)` when the rate is positive (the product is non-negative, so
Python truncation is `Int.floor`), else 0; final = total + tax. -/
def Order.calculate_amounts (o : Order) (tax_rate : ℚ) : Order :=
  let total := (o.items.map OrderItem.subtotal).sum
  let tax : Int := if 0 < tax_rate then Int.floor ((total : ℚ) * tax_rate) else 0
  { o with total_amount := total, tax_amount := tax, final_amount := (total : Int) + tax }

/-- `Order.__post_init__`: build an order and compute its amounts. -/
def mkOrder (order_id : String) (items : List OrderItem) (customer_notes : String)
    (tax_rate : ℚ) : Order :=
  Order.calculate_amounts
    { order_id := order_id, items := items, customer_notes := customer_notes } tax_rate

/-- `Order.update_status` (timestamp bookkeeping and logging omitted). -/
def Order.update_status (o : Order) (new_status : OrderStatus) : Order :=
  { o with status := new_status }

/-! ## src/utils/validators.py -/

/-- `ValidationResult` dataclass.  The untyped `data` payload is not
modelled: for `validate_order_items` it is just the raw input items, and
no claim consumes any other `data` field. -/
structure ValidationResult where
  is_valid : Bool
  message : String
  errors : List String := []
deriving DecidableEq

/-- A raw candidate order-item dict (`Dict[str, Any]`): `none` fields model
absent keys; `quantity` is an unvalidated Python int. -/
structure ItemData where
  menu : Option String := none
  quantity : Option Int := none
  size : Option String := none
  temperature : Option String := none
  options : List String := []
deriving DecidableEq

/-- `OrderValidator.validate_menu_item`. -/
def validate_menu_item (menu_name : String) (category : Option MenuCategory) :
    ValidationResult :=
  match get_menu_item menu_name category with
  | none =>
    { is_valid := false,
      message := "\x27" ++ menu_name ++ "\x27 메뉴를 찾을 수 없습니다.",
      errors := ["menu_not_found"] }
  | some menu_item =>
    if !menu_item.available then
      { is_valid := false,
        message := "\x27" ++ menu_name ++ "\x27 메뉴는 현재 품절입니다.",
        errors := ["menu_unavailable"] }
    else
      { is_valid := true, message := "유효한 메뉴입니다." }

/-- `OrderValidator.validate_quantity`: quantity must lie in [1, 99]. -/
def validate_quantity (quantity : Int) : ValidationResult :=
  if quantity < 1 then
    { is_valid := false, message := "수량은 1개 이상이어야 합니다.",
      errors := ["invalid_quantity"] }
  else if quantity > 99 then
    { is_valid := false, message := "한 번에 최대 99개까지 주문 가능합니다.",
      errors := ["quantity_too_large"] }
  else
    { is_valid := true, message := "유효한 수량입니다." }

/-- The `size_map` normalisation table in `validate_size`. -/
def size_map (s : String) : Option SizeOption :=
  match s with
  | "톨" => some .tall
  | "tall" => some .tall
  | "그란데" => some .grande
  | "grande" => some .grande
  | "벤티" => some .venti
  | "venti" => some .venti
  | _ => none

/-- `OrderValidator.validate_size`. -/
def validate_size (size : String) (menu_name : String) : ValidationResult :=
  match size_map (pyLower size) with
  | none =>
    { is_valid := false,
      message := "\x27" ++ size ++ "\x27는 유효하지 않은 사이즈입니다.",
      errors := ["invalid_size"] }
  | some normalized_size =>
    match get_menu_item menu_name none with
    | some menu_item =>
      if normalized_size ∉ menu_item.size_options then
        { is_valid := false,
          message := "\x27" ++ menu_name ++ "\x27 메뉴는 \x27" ++ size
            ++ "\x27 사이즈를 제공하지 않습니다.",
          errors := ["size_not_available"] }
      else { is_valid := true, message := "유효한 사이즈입니다." }
    | none => { is_valid := true, message := "유효한 사이즈입니다." }

/-- The `temp_map` normalisation table in `validate_temperature`. -/
def temp_map (s : String) : Option TemperatureOption :=
  match s with
  | "뜨거운" => some .hot
  | "핫" => some .hot
  | "hot" => some .hot
  | "차가운" => some .ice
  | "아이스" => some .ice
  | "ice" => some .ice
  | "iced" => some .ice
  | _ => none

/-- `OrderValidator.validate_temperature`. -/
def validate_temperature (temperature : String) (menu_name : String) :
    ValidationResult :=
  match temp_map (pyLower temperature) with
  | none =>
    { is_valid := false,
      message := "\x27" ++ temperature ++ "\x27는 유효하지 않은 온도 옵션입니다.",
      errors := ["invalid_temperature"] }
  | some normalized_temp =>
    match get_menu_item menu_name none with
    | some menu_item =>
      if normalized_temp ∉ menu_item.temperature_options then
        { is_valid := false,
          message := "\x27" ++ menu_name ++ "\x27 메뉴는 \x27" ++ temperature
            ++ "\x27 옵션을 제공하지 않습니다.",
          errors := ["temperature_not_available"] }
      else { is_valid := true, message := "유효한 온도 옵션입니다." }
    | none => { is_valid := true, message := "유효한 온도 옵션입니다." }

/-- Truthiness of an optional string dict entry (`item["size"]` etc.):
the key must be present and non-empty. -/
def strFieldTruthy : Option String → Bool
  | some s => !s.isEmpty
  | none => false

/-- The first error the `validate_order_items` loop body reports for one
item, mirroring its check-then-`continue` chain: missing `menu` key,
missing `quantity` key, invalid menu, invalid quantity, then the
optional size and temperature checks. -/
def item_first_error (it : ItemData) : Option String :=
  match it.menu with
  | none => some "메뉴 이름이 없습니다."
  | some menu =>
    match it.quantity with
    | none => some "수량이 없습니다."
    | some qty =>
      let menu_result := validate_menu_item menu none
      if !menu_result.is_valid then some menu_result.message
      else
        let qty_result := validate_quantity qty
        if !qty_result.is_valid then some qty_result.message
        else
          let size_err : Option String :=
            match it.size with
            | some s =>
              if !s.isEmpty then
                let size_result := validate_size s menu
                if !size_result.is_valid then some size_result.message else none
              else none
            | none => none
          match size_err with
          | some m => some m
          | none =>
            match it.temperature with
            | some t =>
              if !t.isEmpty then
                let temp_result := validate_temperature t menu
                if !temp_result.is_valid then some temp_result.message else none
              else none
            | none => none

/-- Position tag for a per-item error: "항목 k: message" with 1-based k. -/
def item_error_tag (pos : Nat) (m : String) : String :=
  "항목 " ++ Nat.repr pos ++ ": " ++ m

/-- The error accumulator of the `validate_order_items` loop, starting at
0-based index `idx`. -/
def collect_item_errors : Nat → List ItemData → List String
  | _, [] => []
  | idx, it :: rest =>
    match item_first_error it with
    | some m => item_error_tag (idx + 1) m :: collect_item_errors (idx + 1) rest
    | none => collect_item_errors (idx + 1) rest

/-- `OrderValidator.validate_order_items`: empty input is rejected with
`no_items`; otherwise the whole batch is valid exactly when no item
produced an error, and invalid with the aggregated error list otherwise. -/
def validate_order_items (items : List ItemData) : ValidationResult :=
  if items.isEmpty then
    { is_valid := false, message := "주문 항목이 없습니다.", errors := ["no_items"] }
  else
    let errs := collect_item_errors 0 items
    if !errs.isEmpty then
      { is_valid := false, message := "일부 주문 항목이 유효하지 않습니다.", errors := errs }
    else
      { is_valid := true, message := "모든 주문 항목이 유효합니다." }

/-! ## src/services/order_service.py — order creation and the store -/

/-- Python `SizeOption(value)`: succeeds only on the three canonical
enum values, otherwise raises `ValueError` (modelled as `none`). -/
def parse_size_option (s : String) : Option SizeOption :=
  match s with
  | "Tall" => some .tall
  | "Grande" => some .grande
  | "Venti" => some .venti
  | _ => none

/-- The per-item construction loop of
`OrderService.create_order_from_items`: items whose menu cannot be
found in the given category are skipped; a present truthy `size` value
is parsed with `SizeOption(...)` and silently dropped to `None` on
`ValueError`; quantity defaults to 1.  (Quantities are taken as
naturals; every caller validates them into [1, 99] first.) -/
def create_order_items (items_data : List ItemData) (category : MenuCategory) :
    List OrderItem :=
  items_data.filterMap (fun item_data =>
    match item_data.menu with
    | none => none
    | some menu_name =>
      match get_menu_item menu_name (some category) with
      | none => none
      | some menu_item =>
        let size : Option SizeOption :=
          match item_data.size with
          | some s => if !s.isEmpty then parse_size_option s else none
          | none => none
        let quantity : Nat := ((item_data.quantity.getD 1).toNat)
        some (mkOrderItem menu_name quantity category menu_item.base_price size
          item_data.options))

/-- `OrderService.create_order_from_items` (order construction part, with
the generated order id and the configured tax rate passed explicitly). -/
def create_order_obj (order_id : String) (items_data : List ItemData)
    (category : MenuCategory) (customer_notes : String) (tax_rate : ℚ) : Order :=
  mkOrder order_id (create_order_items items_data category) customer_notes tax_rate

/-- The mutable state of `OrderService`: the active-orders dict (an
insertion-ordered association list, as a Python dict) and the history
list. -/
structure OrderServiceState where
  orders : List (String × Order)
  order_history : List Order
deriving DecidableEq

/-- `self.orders.get(order_id)` — association-list lookup. -/
def lookup_order (orders : List (String × Order)) (order_id : String) : Option Order :=
  (orders.find? (fun p => p.1 == order_id)).map Prod.snd

/-- Python dict assignment `d[k] = v`: replace in place if the key
exists, else append. -/
def dict_insert (orders : List (String × Order)) (order_id : String) (o : Order) :
    List (String × Order) :=
  if (orders.find? (fun p => p.1 == order_id)).isSome then
    orders.map (fun p => if p.1 == order_id then (order_id, o) else p)
  else orders ++ [(order_id, o)]

/-- Python `del d[k]`. -/
def dict_erase (orders : List (String × Order)) (order_id : String) :
    List (String × Order) :=
  orders.filter (fun p => !(p.1 == order_id))

/-- `OrderService.create_order_from_items` (state part): store the new
order under its id. -/
def service_create_order (s : OrderServiceState) (order_id : String)
    (items_data : List ItemData) (category : MenuCategory) (customer_notes : String)
    (tax_rate : ℚ) : Order × OrderServiceState :=
  let o := create_order_obj order_id items_data category customer_notes tax_rate
  (o, { orders := dict_insert s.orders order_id o, order_history := s.order_history })

/-- `OrderService.update_order_status`: unknown ids return `False` and
leave the state unchanged; otherwise the status is set, and on
Completed/Cancelled the order moves from the active dict to the history
list. -/
def update_order_status (s : OrderServiceState) (order_id : String)
    (new_status : OrderStatus) : Bool × OrderServiceState :=
  match lookup_order s.orders order_id with
  | none => (false, s)
  | some o =>
    let o2 := o.update_status new_status
    if new_status = .completed ∨ new_status = .cancelled then
      (true, { orders := dict_erase s.orders order_id,
               order_history := s.order_history ++ [o2] })
    else
      (true, { orders := dict_insert s.orders order_id o2,
               order_history := s.order_history })

/-- `OrderService.cancel_order` delegates to `update_order_status`. -/
def cancel_order (s : OrderServiceState) (order_id : String) :
    Bool × OrderServiceState :=
  update_order_status s order_id .cancelled

/-! ## src/services/llm_service.py — deterministic fallback extraction -/

/-- An extracted order-item dict as produced by `_fallback_extraction`. -/
structure ExtractedItem where
  menu : String
  quantity : Nat
  size : Option String
  temperature : Option String
  options : List String
deriving DecidableEq

/-- The menu-match test of `_fallback_extraction`: the whole lowercased
menu name is a substring of the lowercased order text, or some
whitespace-separated token of it longer than 2 characters is. -/
def fallback_menu_matches (menu : String) (order_lower : String) : Bool :=
  pyInStr (pyLower menu) order_lower
    || (pySplitWs (pyLower menu)).any
        (fun part => decide (part.length > 2) && pyInStr part order_lower)

/-- Quantity extraction of `_fallback_extraction`: the first digit among
"1".."9" occurring anywhere in the raw order text, defaulting to 1. -/
def fallback_quantity (order_text : String) : Nat :=
  ((List.range' 1 9).find? (fun i => pyInStr (Nat.repr i) order_text)).getD 1

/-- Size keyword table of `_fallback_extraction`. -/
def fallback_size (order_lower : String) : Option String :=
  if pyInStr "톨" order_lower || pyInStr "tall" order_lower then some "Tall"
  else if pyInStr "그란데" order_lower || pyInStr "grande" order_lower then some "Grande"
  else if pyInStr "벤티" order_lower || pyInStr "venti" order_lower then some "Venti"
  else none

/-- Temperature keyword table of `_fallback_extraction`. -/
def fallback_temperature (order_lower : String) : Option String :=
  if pyInStr "아이스" order_lower || pyInStr "ice" order_lower
      || pyInStr "차가" order_lower then some "Ice"
  else if pyInStr "핫" order_lower || pyInStr "hot" order_lower
      || pyInStr "뜨거" order_lower then some "Hot"
  else none

/-- The menu loop of `_fallback_extraction`: `break` after the first
matching menu name. -/
def fallback_loop (order_text order_lower : String) : List String → List ExtractedItem
  | [] => []
  | menu :: rest =>
    if fallback_menu_matches menu order_lower then
      [{ menu := menu, quantity := fallback_quantity order_text,
         size := fallback_size order_lower,
         temperature := fallback_temperature order_lower, options := [] }]
    else fallback_loop order_text order_lower rest

/-- `LLMService._fallback_extraction`: a total function (it cannot
raise) returning at most one extracted item. -/
def fallback_extraction (order_text : String) (available_menus : List String) :
    List ExtractedItem :=
  fallback_loop order_text (pyLower order_text) available_menus

/-- The beverage menu names, as `CategoryRouter.get_available_menus
MenuCategory.BEVERAGE` returns them (all beverage items are available). -/
def beverage_menu_names : List String :=
  (BEVERAGE_MENU.filter (fun p => p.2.available)).map Prod.fst

/-! ## src/routers/category_router.py -/

/-- `RouteDecision` (category routing). -/
structure RouteDecision where
  category : MenuCategory
  confidence : ℚ
  reasoning : String
deriving DecidableEq

/-- `CategoryRouter._build_category_keywords`, in source order. -/
def category_keywords : List (MenuCategory × List String) := [
  (.beverage,
   ["음료", "커피", "라떼", "아메리카노", "주스", "티", "차",
    "마시", "drink", "coffee", "음료수", "시원한", "따뜻한"]),
  (.dessert,
   ["디저트", "케이크", "빵", "쿠키", "마카롱", "와플", "달콤한",
    "dessert", "sweet", "간식", "후식", "타르트", "스콘"]),
  (.meal,
   ["식사", "끼니", "샌드위치", "파스타", "샐러드", "피자",
    "meal", "food", "먹을", "배고", "점심", "저녁", "아침"])]

/-- Keyword hit count for one category against lowercased text. -/
def keyword_score (text_lower : String) (keywords : List String) : Nat :=
  (keywords.filter (fun k => pyInStr k text_lower)).length

/-- The per-category score dict of `_classify_by_keywords`. -/
def keyword_scores (text : String) : List (MenuCategory × Nat) :=
  category_keywords.map (fun p => (p.1, keyword_score (pyLower text) p.2))

/-- Python `max(scores, key=scores.get)` plus the looked-up score: the
first maximal entry in dict insertion order. -/
def max_by_first : List (MenuCategory × Nat) → Option (MenuCategory × Nat)
  | [] => none
  | p :: rest => some (rest.foldl (fun best q => if q.2 > best.2 then q else best) p)

/-- `CategoryRouter._classify_by_keywords`: `None` when no keyword hits
at all or when the top share is below 0.6; otherwise the first maximal
category with confidence max_score/total_score. -/
def classify_by_keywords (text : String) : Option RouteDecision :=
  let scores := keyword_scores text
  let total := (scores.map Prod.snd).sum
  if total = 0 then none
  else
    match max_by_first scores with
    | none => none
    | some (max_category, max_score) =>
      let confidence : ℚ := (max_score : ℚ) / (total : ℚ)
      if confidence < 3/5 then none
      else
        some { category := max_category, confidence := confidence,
               reasoning := "Keyword matching (score: " ++ Nat.repr max_score
                 ++ "/" ++ Nat.repr total ++ ")" }

/-- The `category_map` of `_parse_category`, in source order. -/
def category_map : List (String × MenuCategory) :=
  [("음료", .beverage), ("beverage", .beverage),
   ("디저트", .dessert), ("dessert", .dessert),
   ("식사", .meal), ("meal", .meal)]

/-- `CategoryRouter._parse_category`: first map key contained in the
stripped, lowercased gateway answer; defaults to Beverage. -/
def parse_category (category_str : String) : MenuCategory :=
  let cs := pyLower (pyStrip category_str)
  match category_map.find? (fun p => pyInStr p.1 cs) with
  | some p => p.2
  | none => .beverage

/-- Outcome of the gateway call `classify_category` as seen by the
router: an answer string, or any raised exception. -/
inductive GatewayResult
  | ok (category_str : String)
  | fail
deriving DecidableEq

/-- The LLM branch of `CategoryRouter.route` (the `try`/`except` around
the gateway call).  The returned flag records that the gateway was
invoked. -/
def route_llm_branch (_normalized : String) (gw : GatewayResult) : RouteDecision × Bool :=
  match gw with
  | .ok s =>
    ({ category := parse_category s, confidence := 9/10,
       reasoning := "LLM classification" }, true)
  | .fail =>
    ({ category := .beverage, confidence := 1/2,
       reasoning := "Fallback to default category" }, true)

/-- `CategoryRouter.route`, with the gateway outcome passed explicitly.
The Bool records whether the gateway was invoked (`false` on the
keyword fast path). -/
def category_route (order_text : String) (gw : GatewayResult) : RouteDecision × Bool :=
  let normalized := normalize_whitespace order_text
  match classify_by_keywords normalized with
  | some keyword_result =>
    if keyword_result.confidence > 4/5 then (keyword_result, false)
    else route_llm_branch normalized gw
  | none => route_llm_branch normalized gw

/-- Scores the router computes for a given raw order text. -/
def route_scores (order_text : String) : List (MenuCategory × Nat) :=
  keyword_scores (normalize_whitespace order_text)

/-- Total keyword hits the router computes for a raw order text. -/
def route_total (order_text : String) : Nat :=
  ((route_scores order_text).map Prod.snd).sum

/-! ## src/routers/serving_router.py -/

/-- `ModelType` enum (src/services/llm_service.py). -/
inductive ModelType
  | cloud
  | local
deriving DecidableEq

/-- `SensitivityLevel` enum. -/
inductive SensitivityLevel
  | low
  | medium
  | high
deriving DecidableEq

/-- `settings.model_strategy` values. -/
inductive ServingStrategy
  | auto
  | cloud_only
  | local_only
deriving DecidableEq

/-- `ServingDecision` dataclass. -/
structure ServingDecision where
  target : ModelType
  model_name : String
  sensitivity : SensitivityLevel
  reason : String
  fallback_available : Bool := false
deriving DecidableEq

/-- `ServingRouter.SENSITIVE_KEYWORDS`, in source order. -/
def SENSITIVE_KEYWORDS : List String :=
  ["전화번호", "주소", "이메일", "카드", "계좌",
   "주민등록", "비밀번호", "개인정보",
   "phone", "address", "email", "card", "password",
   "personal", "private", "confidential"]

/-- Number of sensitive keywords occurring in the lowercased query. -/
def sensitive_count (query : String) : Nat :=
  (SENSITIVE_KEYWORDS.filter (fun k => pyInStr k (pyLower query))).length

/-- `ServingRouter._analyze_sensitivity_fast`: ≥ 2 hits → high,
exactly 1 → medium, 0 → low. -/
def analyze_sensitivity_fast (query : String) : SensitivityLevel :=
  if sensitive_count query ≥ 2 then .high
  else if sensitive_count query = 1 then .medium
  else .low

/-- `settings.gpt_standard_model`. -/
def gpt_standard_model : String := "gpt-5"

/-- `settings.ollama_model`. -/
def ollama_model : String := "exaone3.5:7.8b"

/-- `ServingRouter._create_cloud_decision`. -/
def create_cloud_decision (sensitivity : SensitivityLevel) (reason : String)
    (fallback_available : Bool) : ServingDecision :=
  { target := .cloud, model_name := gpt_standard_model, sensitivity := sensitivity,
    reason := reason, fallback_available := fallback_available }

/-- `ServingRouter._create_local_decision`, with the (cached) local
availability passed explicitly: falls back to a cloud decision when the
local model is unavailable. -/
def create_local_decision (local_available : Bool) (sensitivity : SensitivityLevel)
    (reason : String) : ServingDecision :=
  if !local_available then
    create_cloud_decision sensitivity (reason ++ " (fallback to cloud: local unavailable)")
      false
  else
    { target := .local, model_name := ollama_model, sensitivity := sensitivity,
      reason := reason, fallback_available := true }

/-- `ServingRouter._auto_route` (decision part; the history append is in
`serving_route`). -/
def auto_route (query : String) (local_available : Bool) : ServingDecision :=
  let sensitivity := analyze_sensitivity_fast query
  if sensitivity = .high then
    if local_available then
      create_local_decision local_available sensitivity
        "High sensitivity, using local model for privacy"
    else
      create_cloud_decision sensitivity
        "High sensitivity but local unavailable, using cloud with caution" false
  else if sensitivity = .low then
    create_cloud_decision sensitivity
      "Low sensitivity, using cloud for better performance" local_available
  else
    if local_available then
      create_local_decision local_available sensitivity
        "Medium sensitivity, local model available"
    else
      create_cloud_decision sensitivity
        "Medium sensitivity, local unavailable, using cloud" false

/-- `ServingRouter.route`, with strategy, current history and local
availability passed explicitly; returns the decision and the new
history.  Only the `_auto_route` branch appends to the history. -/
def serving_route (strategy : ServingStrategy) (history : List ServingDecision)
    (query : String) (force_local force_cloud : Bool) (local_available : Bool) :
    ServingDecision × List ServingDecision :=
  if force_cloud then
    (create_cloud_decision .low "Forced cloud serving" false, history)
  else if force_local then
    (create_local_decision local_available .high "Forced local serving", history)
  else if strategy = .cloud_only then
    (create_cloud_decision .low "Cloud-only strategy" false, history)
  else if strategy = .local_only then
    (create_local_decision local_available .medium "Local-only strategy", history)
  else
    let d := auto_route query local_available
    (d, history ++ [d])

/-- The ids of the active orders. -/
def active_ids (s : OrderServiceState) : List String := s.orders.map Prod.fst

/-- The ids of the orders in the history list. -/
def history_ids (s : OrderServiceState) : List String :=
  s.order_history.map Order.order_id

/-- The `OrderService` store invariant: active ids are unique, history
ids are unique, no id is simultaneously active and historical, and the
active dict maps each id to an order carrying that id. -/
def StateInvariant (s : OrderServiceState) : Prop :=
  (active_ids s).Nodup ∧ (history_ids s).Nodup
    ∧ (∀ i ∈ active_ids s, i ∉ history_ids s)
    ∧ (∀ p ∈ s.orders, p.2.order_id = p.1)

/-- States reachable by the `OrderService` API from the initial empty
service.  `generate_order_id` produces ids unique within a process
lifetime (timestamp + random suffix), so order creation carries a
freshness hypothesis; `cancel_order` is literally
`update_order_status _ _ .cancelled` and is covered by the update step;
`clear_old_history` keeps a filtered subsequence of the history. -/
inductive Reachable : OrderServiceState → Prop
  | init : Reachable { orders := [], order_history := [] }
  | create (s : OrderServiceState) (order_id : String) (items_data : List ItemData)
      (category : MenuCategory) (customer_notes : String) (tax_rate : ℚ) :
      Reachable s → order_id ∉ active_ids s → order_id ∉ history_ids s →
      Reachable (service_create_order s order_id items_data category customer_notes
        tax_rate).2
  | update (s : OrderServiceState) (order_id : String) (new_status : OrderStatus) :
      Reachable s → Reachable (update_order_status s order_id new_status).2
  | purge (s : OrderServiceState) (keep : Order → Bool) :
      Reachable s →
      Reachable { orders := s.orders, order_history := s.order_history.filter keep }

/-! ## Theorems -/

/-- C8 counterexample: the claim "an item whose size_options list does
not contain the requested size gets no surcharge" is false: 케이크 has
no size options at all, yet `get_price` charges the 500-won Grande
surcharge on top of its 6000-won base price. -/
theorem get_price_unsupported_size_counterexample :
    SizeOption.grande ∉ cakeItem.size_options
    ∧ cakeItem.base_price = 6000
    ∧ cakeItem.get_price (some SizeOption.grande) = 6500 := by decide

/-- C8 (amended): `get_price` returns the base price plus a fixed delta
determined solely by the requested size (0 for Tall or no size, 500 for
Grande, 1000 for Venti), regardless of whether the item's
`size_options` contains the requested size. -/
theorem get_price_fixed_delta (item : MenuItem) (size : Option SizeOption) :
    item.get_price size = item.base_price + size_delta size := by
  rcases size with _ | s
  · rfl
  · cases s <;> rfl

/-- A sample order used by witnesses: two 아메리카노 at base price. -/
def sample_order : Order :=
  mkOrder "ORD-20240101-abc" [mkOrderItem "아메리카노" 2 .beverage 4500 none []] "" (1/10)

/-- C1: after `calculate_amounts`, the total is the sum of the item
subtotals, the tax is ⌊total · rate⌋ (0 when the rate is 0), and the
final amount is total + tax, for rate ∈ {0, 0.1, 0.2}. -/
theorem calculate_amounts_spec (o : Order) (tax_rate : ℚ)
    (h : tax_rate = 0 ∨ tax_rate = 1/10 ∨ tax_rate = 2/10) :
    (o.calculate_amounts tax_rate).total_amount = (o.items.map OrderItem.subtotal).sum
    ∧ (o.calculate_amounts tax_rate).tax_amount
        = Int.floor (((o.calculate_amounts tax_rate).total_amount : ℚ) * tax_rate)
    ∧ (tax_rate = 0 → (o.calculate_amounts tax_rate).tax_amount = 0)
    ∧ (o.calculate_amounts tax_rate).final_amount
        = ((o.calculate_amounts tax_rate).total_amount : Int)
          + (o.calculate_amounts tax_rate).tax_amount := by
  rcases h with h | h | h <;> subst h <;>
    refine ⟨rfl, ?_, ?_, rfl⟩ <;>
    simp [Order.calculate_amounts]

/-- C1 witness at the sample order with the default 10% tax rate. -/
theorem calculate_amounts_spec_witness :
    ((1:ℚ)/10 = 0 ∨ (1:ℚ)/10 = 1/10 ∨ (1:ℚ)/10 = 2/10)
    ∧ ((sample_order.calculate_amounts (1/10)).total_amount
          = (sample_order.items.map OrderItem.subtotal).sum
        ∧ (sample_order.calculate_amounts (1/10)).tax_amount
            = Int.floor (((sample_order.calculate_amounts (1/10)).total_amount : ℚ)
                * (1/10))
        ∧ ((1:ℚ)/10 = 0 → (sample_order.calculate_amounts (1/10)).tax_amount = 0)
        ∧ (sample_order.calculate_amounts (1/10)).final_amount
            = ((sample_order.calculate_amounts (1/10)).total_amount : Int)
              + (sample_order.calculate_amounts (1/10)).tax_amount)
    ∧ (sample_order.calculate_amounts (1/10)).final_amount = 9900 :=
  ⟨Or.inr (Or.inl rfl),
   calculate_amounts_spec sample_order (1/10) (Or.inr (Or.inl rfl)),
   by
    have hspec := calculate_amounts_spec sample_order (1/10) (Or.inr (Or.inl rfl))
    have htot : (sample_order.calculate_amounts (1/10)).total_amount = 9000 := by decide
    rw [hspec.2.2.2, hspec.2.1, htot]
    norm_num⟩

/-- Item lists with validator-recognised but non-canonical size labels. -/
def c10_items : List ItemData :=
  [{ menu := some "카페라떼", quantity := some 1, size := some "grande" },
   { menu := some "아메리카노", quantity := some 2, size := some "톨" }]

/-- C10: the lists with sizes "grande" and "톨" pass
`validate_order_items` (the validator normalises those labels), but
`SizeOption(...)` parsing in `create_order_from_items` accepts only the
canonical "Tall"/"Grande"/"Venti", so the created `OrderItem`s carry
`size = None` and are priced without any size surcharge: the 카페라떼
ordered as "grande" costs its 5000-won base price instead of the
5500 won `get_price` would charge for Grande. -/
theorem create_order_drops_noncanonical_size :
    (validate_order_items c10_items).is_valid = true
    ∧ size_map (pyLower "grande") = some SizeOption.grande
    ∧ size_map (pyLower "톨") = some SizeOption.tall
    ∧ parse_size_option "grande" = none
    ∧ parse_size_option "톨" = none
    ∧ (create_order_items c10_items .beverage).map
        (fun it => (it.menu_name, it.size, it.subtotal))
      = [("카페라떼", none, 5000), ("아메리카노", none, 9000)]
    ∧ ((get_menu_item "카페라떼" none).map
        (fun mi => mi.get_price (some SizeOption.grande))) = some 5500 := by decide

/-- C7 counterexample: a `route` call short-circuited by `force_cloud`
returns without appending, so the history stays empty instead of
growing to length 1 as the claim states. -/
theorem serving_route_forced_cloud_counterexample :
    (serving_route .auto [] "피자 주문" false true true).2 = []
    ∧ (serving_route .auto [] "피자 주문" false true true).2.length ≠ 1 := by decide

/-- C7 (amended): only the auto-strategy path appends its decision to
`serving_history`; calls short-circuited by force_cloud/force_local or
by the cloud_only/local_only strategies leave the history unchanged, so
the history grows by exactly one per auto-path call and by zero
otherwise. -/
theorem serving_route_appends_only_auto (strategy : ServingStrategy)
    (history : List ServingDecision) (query : String)
    (force_local force_cloud local_available : Bool) :
    (serving_route strategy history query force_local force_cloud local_available).2
      = if force_cloud || force_local || decide (strategy ≠ .auto) then history
        else history
          ++ [(serving_route strategy history query force_local force_cloud
                local_available).1] := by
  cases force_cloud <;> cases force_local <;> cases strategy <;>
    simp [serving_route]

/-- The error accumulator equals the enumerated first-error list. -/
theorem collect_item_errors_eq (n : Nat) (items : List ItemData) :
    collect_item_errors n items
      = (List.enumFrom n items).filterMap
          (fun p => (item_first_error p.2).map (item_error_tag (p.1 + 1))) := by
  induction items generalizing n with
  | nil => rfl
  | cons it rest ih =>
    rw [List.enumFrom_cons, List.filterMap_cons]
    cases h : item_first_error it <;>
      simp [collect_item_errors, h, ih]

/-- The accumulator is empty exactly when every item passes all checks. -/
theorem collect_item_errors_eq_nil_iff (n : Nat) (items : List ItemData) :
    collect_item_errors n items = [] ↔ ∀ it ∈ items, item_first_error it = none := by
  induction items generalizing n with
  | nil => simp [collect_item_errors]
  | cons it rest ih =>
    cases h : item_first_error it <;>
      simp [collect_item_errors, h, ih]

/-- The single-item list of the excessive-quantity scenario. -/
def over_quantity_items : List ItemData :=
  [{ menu := some "아메리카노", quantity := some 150 }]

/-- C2: `validate_order_items` on a non-empty list is all-or-nothing —
it is valid exactly when every item passes every check (present menu
and quantity keys, known available menu, quantity in [1, 99],
recognised and supported size/temperature), and otherwise carries
exactly one error per failing item, tagged with the item's 1-based
position; in particular `[{menu: 아메리카노, quantity: 150}]` is
rejected with the excessive-quantity message for item 1. -/
theorem validate_order_items_spec (items : List ItemData) (h : items ≠ []) :
    ((validate_order_items items).is_valid = true ↔
      ∀ it ∈ items, item_first_error it = none)
    ∧ (validate_order_items items).errors
        = items.enum.filterMap
            (fun p => (item_first_error p.2).map (item_error_tag (p.1 + 1)))
    ∧ (validate_order_items over_quantity_items).is_valid = false
    ∧ (validate_order_items over_quantity_items).errors
        = [item_error_tag 1 "한 번에 최대 99개까지 주문 가능합니다."] := by
  have hne : items.isEmpty = false := by
    cases items with
    | nil => exact absurd rfl h
    | cons a l => rfl
  refine ⟨?_, ?_, by decide, by decide⟩
  · by_cases herr : collect_item_errors 0 items = []
    · exact iff_of_true (by simp [validate_order_items, hne, herr])
        ((collect_item_errors_eq_nil_iff 0 items).mp herr)
    · refine iff_of_false ?_ ?_
      · simp [validate_order_items, hne, herr]
      · exact fun hall => herr ((collect_item_errors_eq_nil_iff 0 items).mpr hall)
  · have herrs : (validate_order_items items).errors = collect_item_errors 0 items := by
      by_cases herr : collect_item_errors 0 items = [] <;>
        simp [validate_order_items, hne, herr]
    rw [herrs, collect_item_errors_eq, List.enum_eq_enumFrom]

/-- C2 witness at the excessive-quantity scenario list. -/
theorem validate_order_items_spec_witness :
    over_quantity_items ≠ []
    ∧ (((validate_order_items over_quantity_items).is_valid = true ↔
          ∀ it ∈ over_quantity_items, item_first_error it = none)
       ∧ (validate_order_items over_quantity_items).errors
           = over_quantity_items.enum.filterMap
               (fun p => (item_first_error p.2).map (item_error_tag (p.1 + 1)))
       ∧ (validate_order_items over_quantity_items).is_valid = false
       ∧ (validate_order_items over_quantity_items).errors
           = [item_error_tag 1 "한 번에 최대 99개까지 주문 가능합니다."]) :=
  ⟨by decide, validate_order_items_spec over_quantity_items (by decide)⟩

/-- The fallback menu loop yields at most one item. -/
theorem fallback_loop_length_le (order_text order_lower : String)
    (menus : List String) :
    (fallback_loop order_text order_lower menus).length ≤ 1 := by
  induction menus with
  | nil => simp [fallback_loop]
  | cons m rest ih =>
    by_cases hm : fallback_menu_matches m order_lower <;>
      simp [fallback_loop, hm, ih]

/-- The fallback menu loop yields nothing exactly when no menu matches. -/
theorem fallback_loop_eq_nil_iff (order_text order_lower : String)
    (menus : List String) :
    fallback_loop order_text order_lower menus = []
      ↔ ∀ m ∈ menus, fallback_menu_matches m order_lower = false := by
  induction menus with
  | nil => simp [fallback_loop]
  | cons m rest ih =>
    by_cases hm : fallback_menu_matches m order_lower <;>
      simp [fallback_loop, hm, ih]

/-- The fallback menu loop returns exactly the first matching menu. -/
theorem fallback_loop_first_match (order_text order_lower : String)
    (menus : List String) (m : String)
    (hfind : menus.find? (fun m2 => fallback_menu_matches m2 order_lower) = some m) :
    fallback_loop order_text order_lower menus
      = [{ menu := m, quantity := fallback_quantity order_text,
           size := fallback_size order_lower,
           temperature := fallback_temperature order_lower, options := [] }] := by
  induction menus with
  | nil => simp at hfind
  | cons m2 rest ih =>
    by_cases hm : fallback_menu_matches m2 order_lower
    · rw [@List.find?_cons_of_pos String (fun m3 => fallback_menu_matches m3 order_lower)
          m2 rest hm] at hfind
      cases hfind
      simp [fallback_loop, hm]
    · rw [@List.find?_cons_of_neg String (fun m3 => fallback_menu_matches m3 order_lower)
          m2 rest (by simpa using hm)] at hfind
      simp [fallback_loop, hm, ih hfind]

/-- C3: the deterministic fallback extractor is a total function that
returns at most one item — the first available menu matching the
lowercased order text by full name or by a token longer than 2
characters — and the empty list when nothing matches; on
"아메리카노 2개" with the beverage menus it returns exactly
{menu: 아메리카노, quantity: 2, size: null, temperature: null}. -/
theorem fallback_extraction_spec (order_text : String) (available_menus : List String) :
    (fallback_extraction order_text available_menus).length ≤ 1
    ∧ (fallback_extraction order_text available_menus = []
        ↔ ∀ m ∈ available_menus,
            fallback_menu_matches m (pyLower order_text) = false)
    ∧ (∀ m, available_menus.find?
          (fun m2 => fallback_menu_matches m2 (pyLower order_text)) = some m →
        fallback_extraction order_text available_menus
          = [{ menu := m, quantity := fallback_quantity order_text,
               size := fallback_size (pyLower order_text),
               temperature := fallback_temperature (pyLower order_text),
               options := [] }])
    ∧ fallback_extraction "아메리카노 2개" beverage_menu_names
        = [{ menu := "아메리카노", quantity := 2, size := none, temperature := none,
             options := [] }] :=
  ⟨fallback_loop_length_le order_text (pyLower order_text) available_menus,
   fallback_loop_eq_nil_iff order_text (pyLower order_text) available_menus,
   fun m hm => fallback_loop_first_match order_text (pyLower order_text)
     available_menus m hm,
   by decide⟩

/-- C3 witness: the first-match clause applied to the concrete scenario. -/
theorem fallback_extraction_spec_witness :
    beverage_menu_names.find?
        (fun m2 => fallback_menu_matches m2 (pyLower "아메리카노 2개"))
      = some "아메리카노"
    ∧ fallback_extraction "아메리카노 2개" beverage_menu_names
        = [{ menu := "아메리카노", quantity := fallback_quantity "아메리카노 2개",
             size := fallback_size (pyLower "아메리카노 2개"),
             temperature := fallback_temperature (pyLower "아메리카노 2개"),
             options := [] }] :=
  ⟨by decide,
   (fallback_extraction_spec "아메리카노 2개" beverage_menu_names).2.2.1 "아메리카노"
     (by decide)⟩

/-- `classify_by_keywords` when some keyword hits and the top share is
at least 0.6: the decision is the first maximal category with
confidence max_score/total_score. -/
theorem classify_by_keywords_eq_some (text : String) (max_category : MenuCategory)
    (max_score : Nat)
    (hmax : max_by_first (keyword_scores text) = some (max_category, max_score))
    (hge : (3:ℚ)/5 ≤ (max_score : ℚ) / (((keyword_scores text).map Prod.snd).sum : ℚ))
    (htot : ((keyword_scores text).map Prod.snd).sum ≠ 0) :
    classify_by_keywords text
      = some { category := max_category,
               confidence :=
                 (max_score : ℚ) / (((keyword_scores text).map Prod.snd).sum : ℚ),
               reasoning := "Keyword matching (score: " ++ Nat.repr max_score ++ "/"
                 ++ Nat.repr (((keyword_scores text).map Prod.snd).sum) ++ ")" } := by
  simp only [classify_by_keywords]
  rw [if_neg htot, hmax]
  dsimp only
  rw [if_neg (not_lt.mpr hge)]

/-- C4: whenever the keyword scores of the routed text give the first
maximal category a share strictly above 0.8, `CategoryRouter.route`
returns that category with confidence max_score/total_score on the fast
path, never invoking the gateway (the Bool component is `false`, and
the result does not depend on the gateway outcome `gw`). -/
theorem category_route_fast_path (order_text : String) (gw : GatewayResult)
    (max_category : MenuCategory) (max_score : Nat)
    (hmax : max_by_first (route_scores order_text) = some (max_category, max_score))
    (hshare : (4:ℚ)/5 < (max_score : ℚ) / (route_total order_text : ℚ)) :
    category_route order_text gw
      = ({ category := max_category,
           confidence := (max_score : ℚ) / (route_total order_text : ℚ),
           reasoning := "Keyword matching (score: " ++ Nat.repr max_score ++ "/"
             ++ Nat.repr (route_total order_text) ++ ")" }, false) := by
  have htot : route_total order_text ≠ 0 := by
    intro h0
    rw [h0] at hshare
    norm_num at hshare
  have hcls := classify_by_keywords_eq_some (normalize_whitespace order_text)
    max_category max_score hmax (le_of_lt (lt_of_le_of_lt (by norm_num) hshare)) htot
  simp only [category_route, hcls, gt_iff_lt]
  rw [if_pos (show (4:ℚ)/5 < (max_score : ℚ)
      / (((keyword_scores (normalize_whitespace order_text)).map Prod.snd).sum : ℚ)
    from hshare)]
  rfl

/-- C4 witness: text consisting only of the keyword "피자" routes to
Meal on the fast path with confidence 1 ≥ 0.6, with no gateway call
(the gateway outcome is `fail` and the result is still the keyword
decision). -/
theorem category_route_fast_path_witness :
    max_by_first (route_scores "피자") = some (MenuCategory.meal, 1)
    ∧ (4:ℚ)/5 < (1 : ℚ) / (route_total "피자" : ℚ)
    ∧ (category_route "피자" GatewayResult.fail).2 = false
    ∧ (category_route "피자" GatewayResult.fail).1.category = MenuCategory.meal
    ∧ (3:ℚ)/5 ≤ (category_route "피자" GatewayResult.fail).1.confidence := by
  have ht : route_total "피자" = 1 := by decide
  have hmax : max_by_first (route_scores "피자") = some (MenuCategory.meal, 1) := by
    decide
  have hshare : (4:ℚ)/5 < (1 : ℚ) / (route_total "피자" : ℚ) := by
    rw [ht]
    norm_num
  have h := category_route_fast_path "피자" GatewayResult.fail MenuCategory.meal 1
    hmax hshare
  refine ⟨hmax, hshare, ?_, ?_, ?_⟩
  · rw [h]
  · rw [h]
  · rw [h]
    simp only
    rw [ht]
    norm_num

/-- C5: when the keyword fast path does not decide (no keyword decision,
or its confidence is at most 0.8) and the gateway classification
raises, `CategoryRouter.route` swallows the exception and returns the
Beverage category with confidence 0.5. -/
theorem category_route_gateway_failure (order_text : String)
    (h : ∀ kr, classify_by_keywords (normalize_whitespace order_text) = some kr →
          ¬(kr.confidence > 4/5)) :
    category_route order_text GatewayResult.fail
      = ({ category := MenuCategory.beverage, confidence := 1/2,
           reasoning := "Fallback to default category" }, true) := by
  simp only [category_route]
  cases hc : classify_by_keywords (normalize_whitespace order_text) with
  | none => rfl
  | some kr =>
    dsimp only
    rw [if_neg (h kr hc)]
    rfl

/-- C5 witness: "zzzz" hits no keyword, so with a failing gateway the
router returns the Beverage fallback decision. -/
theorem category_route_gateway_failure_witness :
    classify_by_keywords (normalize_whitespace "zzzz") = none
    ∧ category_route "zzzz" GatewayResult.fail
        = ({ category := MenuCategory.beverage, confidence := 1/2,
             reasoning := "Fallback to default category" }, true) :=
  ⟨by decide,
   category_route_gateway_failure "zzzz" (fun kr hkr => by
     rw [show classify_by_keywords (normalize_whitespace "zzzz") = none from by decide]
       at hkr
     cases hkr)⟩

/-- C6: under the auto strategy, sensitivity is high for ≥ 2 sensitive
keyword hits, medium for exactly 1, low for 0, and `_auto_route`
decides: high → local when available else cloud; low → cloud with
`fallback_available` recording local availability; medium → local when
available else cloud. -/
theorem auto_route_decision_table (query : String) (local_available : Bool) :
    (analyze_sensitivity_fast query = .high ↔ 2 ≤ sensitive_count query)
    ∧ (analyze_sensitivity_fast query = .medium ↔ sensitive_count query = 1)
    ∧ (analyze_sensitivity_fast query = .low ↔ sensitive_count query = 0)
    ∧ (auto_route query local_available).sensitivity = analyze_sensitivity_fast query
    ∧ (analyze_sensitivity_fast query = .high →
        (auto_route query local_available).target
          = (if local_available then .local else .cloud))
    ∧ (analyze_sensitivity_fast query = .low →
        (auto_route query local_available).target = .cloud
        ∧ (auto_route query local_available).fallback_available = local_available)
    ∧ (analyze_sensitivity_fast query = .medium →
        (auto_route query local_available).target
          = (if local_available then .local else .cloud)) := by
  by_cases h2 : 2 ≤ sensitive_count query
  · cases local_available <;>
      simp [analyze_sensitivity_fast, auto_route, create_local_decision,
        create_cloud_decision, h2] <;> omega
  · by_cases h1 : sensitive_count query = 1
    · cases local_available <;>
        simp [analyze_sensitivity_fast, auto_route, create_local_decision,
          create_cloud_decision, h2, h1]
    · cases local_available <;>
        simp [analyze_sensitivity_fast, auto_route, create_local_decision,
          create_cloud_decision, h2, h1] <;> omega

/-- C6 witness: a query containing the two sensitive keywords 전화번호
and 주소 with the local backend available yields target local with
sensitivity high. -/
theorem auto_route_decision_table_witness :
    2 ≤ sensitive_count "전화번호 주소"
    ∧ analyze_sensitivity_fast "전화번호 주소" = .high
    ∧ (auto_route "전화번호 주소" true).target = .local
    ∧ (auto_route "전화번호 주소" true).sensitivity = .high := by
  have h := auto_route_decision_table "전화번호 주소" true
  have hc : sensitive_count "전화번호 주소" = 2 := by decide
  have hhigh : analyze_sensitivity_fast "전화번호 주소" = .high := h.1.mpr (by omega)
  refine ⟨by omega, hhigh, ?_, ?_⟩
  · simpa using h.2.2.2.2.1 hhigh
  · rw [h.2.2.2.1, hhigh]

/-- `lookup_order` misses exactly when the id is not an active key. -/
theorem lookup_order_eq_none_iff (orders : List (String × Order)) (order_id : String) :
    lookup_order orders order_id = none ↔ order_id ∉ orders.map Prod.fst := by
  rw [lookup_order, Option.map_eq_none', List.find?_eq_none]
  constructor
  · intro h hmem
    obtain ⟨p, hp, hfst⟩ := List.mem_map.mp hmem
    exact h p hp (by simp [hfst])
  · intro h p hp hbeq
    have hfst : p.1 = order_id := by simpa using hbeq
    exact h (hfst ▸ List.mem_map_of_mem Prod.fst hp)

/-- A successful `lookup_order` exhibits the matching stored pair. -/
theorem lookup_order_some (orders : List (String × Order)) (order_id : String)
    (o : Order) (h : lookup_order orders order_id = some o) :
    ∃ p ∈ orders, p.1 = order_id ∧ p.2 = o := by
  rw [lookup_order, Option.map_eq_some'] at h
  obtain ⟨p, hfind, hsnd⟩ := h
  exact ⟨p, List.mem_of_find?_eq_some hfind,
    by simpa using List.find?_some hfind, hsnd⟩

/-- Creation stamps the given id on the created order. -/
theorem create_order_obj_order_id (order_id : String) (items_data : List ItemData)
    (category : MenuCategory) (customer_notes : String) (tax_rate : ℚ) :
    (create_order_obj order_id items_data category customer_notes tax_rate).order_id
      = order_id := rfl

/-- `update_status` preserves the order id. -/
theorem update_status_order_id (o : Order) (st : OrderStatus) :
    (o.update_status st).order_id = o.order_id := rfl

/-- Every state reachable through the `OrderService` API satisfies the
store invariant. -/
theorem reachable_invariant (s : OrderServiceState) (hs : Reachable s) :
    StateInvariant s := by
  induction hs with
  | init =>
    exact ⟨by simp [active_ids], by simp [history_ids],
      by simp [active_ids, history_ids], by simp⟩
  | create s oid items cat notes rate hr hact hhist ih =>
    have hfind : s.orders.find? (fun p => p.1 == oid) = none := by
      rw [List.find?_eq_none]
      intro p hp hbeq
      have hfst : p.1 = oid := by simpa using hbeq
      exact hact (hfst ▸ List.mem_map_of_mem Prod.fst hp)
    have horders : (service_create_order s oid items cat notes rate).2.orders
        = s.orders ++ [(oid, create_order_obj oid items cat notes rate)] := by
      simp [service_create_order, dict_insert, hfind]
    have hactive : active_ids (service_create_order s oid items cat notes rate).2
        = active_ids s ++ [oid] := by
      simp [active_ids, horders]
    refine ⟨?_, ih.2.1, ?_, ?_⟩
    · rw [hactive]
      refine List.nodup_append.mpr ⟨ih.1, by simp, ?_⟩
      rw [List.disjoint_singleton]
      exact hact
    · intro i hi
      rw [hactive] at hi
      rcases List.mem_append.mp hi with h | h
      · exact ih.2.2.1 i h
      · have he : i = oid := by simpa using h
        subst he
        exact hhist
    · intro p hp
      rw [horders] at hp
      rcases List.mem_append.mp hp with h | h
      · exact ih.2.2.2 p h
      · have he : p = (oid, create_order_obj oid items cat notes rate) := by simpa using h
        subst he
        rfl
  | update s oid st hr ih =>
    cases hc : lookup_order s.orders oid with
    | none =>
      have hstate : (update_order_status s oid st).2 = s := by
        simp [update_order_status, hc]
      rw [hstate]
      exact ih
    | some o =>
      obtain ⟨p, hpmem, hpid, hpo⟩ := lookup_order_some s.orders oid o hc
      have hoid : o.order_id = oid := by rw [← hpo, ih.2.2.2 p hpmem, hpid]
      have hid_active : oid ∈ active_ids s := hpid ▸ List.mem_map_of_mem Prod.fst hpmem
      by_cases hterm : st = .completed ∨ st = .cancelled
      · have hstate : (update_order_status s oid st).2
            = { orders := dict_erase s.orders oid,
                order_history := s.order_history ++ [o.update_status st] } := by
          simp only [update_order_status, hc]
          rw [if_pos hterm]
        rw [hstate]
        have hhist2 : history_ids
            { orders := dict_erase s.orders oid,
              order_history := s.order_history ++ [o.update_status st] }
            = history_ids s ++ [oid] := by
          simp [history_ids, Order.update_status, hoid]
        refine ⟨?_, ?_, ?_, ?_⟩
        · exact List.Nodup.sublist ((List.filter_sublist s.orders).map Prod.fst) ih.1
        · rw [hhist2]
          refine List.nodup_append.mpr ⟨ih.2.1, by simp, ?_⟩
          rw [List.disjoint_singleton]
          exact ih.2.2.1 oid hid_active
        · intro i hi hmem
          obtain ⟨q, hq, hqi⟩ := List.mem_map.mp hi
          obtain ⟨hqmem, hqpred⟩ := List.mem_filter.mp hq
          have hine : i ≠ oid := by
            intro he
            rw [he] at hqi
            simp [hqi] at hqpred
          have hiact : i ∈ active_ids s := hqi ▸ List.mem_map_of_mem Prod.fst hqmem
          rw [hhist2] at hmem
          rcases List.mem_append.mp hmem with h | h
          · exact ih.2.2.1 i hiact h
          · exact hine (by simpa using h)
        · intro q hq
          obtain ⟨hqmem, _⟩ := List.mem_filter.mp hq
          exact ih.2.2.2 q hqmem
      · obtain ⟨pr, hprfind, hpro⟩ :
            ∃ pr, s.orders.find? (fun p2 => p2.1 == oid) = some pr ∧ pr.2 = o := by
          rw [lookup_order, Option.map_eq_some'] at hc
          exact hc
        have hissome : (s.orders.find? (fun p2 => p2.1 == oid)).isSome := by
          rw [hprfind]
          rfl
        have hstate : (update_order_status s oid st).2
            = { orders := s.orders.map
                  (fun p2 => if p2.1 == oid then (oid, o.update_status st) else p2),
                order_history := s.order_history } := by
          simp only [update_order_status, hc]
          rw [if_neg hterm]
          simp [dict_insert, hissome]
        rw [hstate]
        have hactive_eq : active_ids
            { orders := s.orders.map
                (fun p2 => if p2.1 == oid then (oid, o.update_status st) else p2),
              order_history := s.order_history }
            = active_ids s := by
          show (s.orders.map
            (fun p2 => if p2.1 == oid then (oid, o.update_status st) else p2)).map
              Prod.fst = s.orders.map Prod.fst
          rw [List.map_map]
          refine List.map_congr_left (fun p2 hp2 => ?_)
          by_cases hb : p2.1 == oid
          · have heq : p2.1 = oid := by simpa using hb
            simp [hb, heq]
          · have hne : p2.1 ≠ oid := by simpa using hb
            simp [hb, hne]
        refine ⟨?_, ih.2.1, ?_, ?_⟩
        · rw [hactive_eq]
          exact ih.1
        · intro i hi
          rw [hactive_eq] at hi
          exact ih.2.2.1 i hi
        · intro q hq
          obtain ⟨p2, hp2, hp2q⟩ := List.mem_map.mp hq
          by_cases hb : p2.1 == oid
          · rw [if_pos hb] at hp2q
            rw [← hp2q]
            show (o.update_status st).order_id = oid
            rw [update_status_order_id, hoid]
          · rw [if_neg hb] at hp2q
            rw [← hp2q]
            exact ih.2.2.2 p2 hp2
  | purge s keep hr ih =>
    refine ⟨ih.1, ?_, ?_, ih.2.2.2⟩
    · exact List.Nodup.sublist
        ((List.filter_sublist s.order_history).map Order.order_id) ih.2.1
    · intro i hi hmem
      exact ih.2.2.1 i hi
        (((List.filter_sublist s.order_history).map Order.order_id).subset hmem)

/-- C9: in every reachable `OrderService` state each order id is active
or historical but never both (with unique ids on each side and
consistent keys); `update_order_status` moves an order from the active
map to the history exactly when the new status is Completed or
Cancelled; and `update_order_status`/`cancel_order` on an unknown id
return `False` and leave the state unchanged (they are total functions
and cannot raise). -/
theorem order_service_spec :
    (∀ s, Reachable s → StateInvariant s)
    ∧ (∀ s order_id new_status, lookup_order s.orders order_id = none →
        update_order_status s order_id new_status = (false, s))
    ∧ (∀ s order_id, lookup_order s.orders order_id = none →
        cancel_order s order_id = (false, s))
    ∧ (∀ s order_id new_status o, lookup_order s.orders order_id = some o →
        (((update_order_status s order_id new_status).2.order_history
            = s.order_history ++ [o.update_status new_status]
          ∧ order_id ∉ active_ids (update_order_status s order_id new_status).2)
         ↔ (new_status = OrderStatus.completed
            ∨ new_status = OrderStatus.cancelled))) := by
  refine ⟨reachable_invariant, ?_, ?_, ?_⟩
  · intro s order_id new_status h
    simp [update_order_status, h]
  · intro s order_id h
    simp [cancel_order, update_order_status, h]
  · intro s oid st o hc
    by_cases hterm : st = .completed ∨ st = .cancelled
    · have hstate : (update_order_status s oid st).2
          = { orders := dict_erase s.orders oid,
              order_history := s.order_history ++ [o.update_status st] } := by
        simp only [update_order_status, hc]
        rw [if_pos hterm]
      refine iff_of_true ⟨by rw [hstate], ?_⟩ hterm
      rw [hstate]
      intro hmem
      obtain ⟨q, hq, hqi⟩ := List.mem_map.mp hmem
      obtain ⟨_, hqpred⟩ := List.mem_filter.mp hq
      rw [hqi] at hqpred
      simp at hqpred
    · obtain ⟨pr, hprfind, hpro⟩ :
          ∃ pr, s.orders.find? (fun p2 => p2.1 == oid) = some pr ∧ pr.2 = o := by
        rw [lookup_order, Option.map_eq_some'] at hc
        exact hc
      have hissome : (s.orders.find? (fun p2 => p2.1 == oid)).isSome := by
        rw [hprfind]
        rfl
      have hstate : (update_order_status s oid st).2
          = { orders := s.orders.map
                (fun p2 => if p2.1 == oid then (oid, o.update_status st) else p2),
              order_history := s.order_history } := by
        simp only [update_order_status, hc]
        rw [if_neg hterm]
        simp [dict_insert, hissome]
      refine iff_of_false ?_ hterm
      rintro ⟨hh, _⟩
      rw [hstate] at hh
      have := congrArg List.length hh
      simp at this

/-- Demo input for the C9 witness. -/
def demo_items : List ItemData := [{ menu := some "아메리카노", quantity := some 2 }]

/-- The order created by the C9 witness scenario. -/
def demo_order : Order :=
  (service_create_order { orders := [], order_history := [] } "ORD-1" demo_items
    .beverage "" (1/10)).1

/-- The service state holding `demo_order` as the only active order. -/
def demo_state : OrderServiceState :=
  (service_create_order { orders := [], order_history := [] } "ORD-1" demo_items
    .beverage "" (1/10)).2

/-- C9 witness: unknown-id update/cancel on the empty service return
`False` unchanged, the initial state satisfies the invariant, and
completing the one active demo order moves it to the history. -/
theorem order_service_spec_witness :
    lookup_order ([] : List (String × Order)) "ORD-404" = none
    ∧ update_order_status { orders := [], order_history := [] } "ORD-404"
        OrderStatus.completed = (false, { orders := [], order_history := [] })
    ∧ cancel_order { orders := [], order_history := [] } "ORD-404"
        = (false, { orders := [], order_history := [] })
    ∧ StateInvariant { orders := [], order_history := [] }
    ∧ lookup_order demo_state.orders "ORD-1" = some demo_order
    ∧ (((update_order_status demo_state "ORD-1" OrderStatus.completed).2.order_history
          = demo_state.order_history
            ++ [demo_order.update_status OrderStatus.completed]
        ∧ "ORD-1" ∉ active_ids (update_order_status demo_state "ORD-1"
            OrderStatus.completed).2)
       ↔ (OrderStatus.completed = OrderStatus.completed
          ∨ OrderStatus.completed = OrderStatus.cancelled)) := by
  refine ⟨rfl, ?_, ?_, ?_, rfl, ?_⟩
  · exact order_service_spec.2.1 _ "ORD-404" .completed rfl
  · exact order_service_spec.2.2.1 _ "ORD-404" rfl
  · exact order_service_spec.1 _ Reachable.init
  · exact order_service_spec.2.2.2 demo_state "ORD-1" .completed demo_order rfl
